import Mathlib

/-!
Verification of the `CacheLevel` component of `src/cache.py`, a set-associative
cache level simulator with FIFO / LRU / MRU eviction policies and write-back
dirty tracking.

The embedding mirrors the Python source:
* `OrderedDict` per set is a `List (Nat × Nat)` of `(tag, block_address)` pairs
  in insertion order (front = oldest);
* the per-set dirty-tag `set` is a `List Nat` with idempotent insertion;
* Python exceptions are an explicit error type: line 91 of `cache.py` reads the
  variable `victim_tag`, which is never bound (the victim selection binds
  `victim_block_tag`), so every eviction under a recognized policy raises
  `NameError` before the writeback / removal code on lines 93–101 runs;
  `next(iter(...))` on an empty `OrderedDict` would raise `StopIteration`.
-/

/-- Modelled from the spec: the reporting callbacks `report_hit`, `report_miss`,
`report_eviction`, `report_writeback` are inherited from the `Level` base class
(`utils.py`, which is not part of the sources here); the spec states each is a
pure notification with no return value, consumed by an external collector.  We
model them as entries appended to an event log. -/
inductive Event where
  | hit : Nat → Event
  | miss : Nat → Event
  | eviction : Nat → Event
  | writeback : Nat → Event
deriving DecidableEq, Repr

/-- Python runtime errors that the code in `cache.py` can raise. -/
inductive PyError where
  | nameError
  | stopIteration
deriving DecidableEq, Repr

/-- The mutable state of one `CacheLevel` instance (geometry fields plus the
per-set `OrderedDict`s in `self.cache` and dirty-tag sets in `self.dirty_bits`).
Sets are indexed by `Nat`; indices at or above `num_sets` are never produced by
`_calculate_index` when `num_sets > 0`, matching the dict keyed `0..num_sets-1`. -/
structure CacheState where
  size : Nat
  block_size : Nat
  associativity : Nat
  eviction_policy : String
  write_policy : String
  num_sets : Nat
  cache : Nat → List (Nat × Nat)
  dirty_bits : Nat → List Nat

namespace CacheLevel

/-- `CacheLevel.__init__` (lines 6–20): stores the geometry, computes
`num_sets = size // (block_size * associativity)` by floor division, and
creates empty per-set structures.  No validation is performed; for positive
parameters the constructor cannot raise. -/
def init (size block_size associativity : Nat)
    (eviction_policy write_policy : String) : CacheState :=
  { size := size
    block_size := block_size
    associativity := associativity
    eviction_policy := eviction_policy
    write_policy := write_policy
    num_sets := size / (block_size * associativity)
    cache := fun _ => []
    dirty_bits := fun _ => [] }

/-- `_calculate_index` (line 23): `(address // block_size) % num_sets`. -/
def calculate_index (s : CacheState) (address : Nat) : Nat :=
  (address / s.block_size) % s.num_sets

/-- `_calculate_tag` (line 26): `address // (block_size * num_sets)`. -/
def calculate_tag (s : CacheState) (address : Nat) : Nat :=
  address / (s.block_size * s.num_sets)

/-- `_calculate_block_address` (line 29): `address - (address % block_size)`. -/
def calculate_block_address (s : CacheState) (address : Nat) : Nat :=
  address - (address % s.block_size)

/-- `_calculate_block_address_from_tag_index` (line 32):
`(tag * num_sets + cache_index) * block_size`. -/
def calculate_block_address_from_tag_index (s : CacheState)
    (tag cache_index : Nat) : Nat :=
  (tag * s.num_sets + cache_index) * s.block_size

/-- Membership test `tag in self.cache[cache_index]` on an `OrderedDict`
modelled as an association list. -/
def containsKey (l : List (Nat × Nat)) (t : Nat) : Bool :=
  l.any (fun p => p.1 = t)

/-- `OrderedDict.__setitem__`: an existing key keeps its position and gets the
new value; a fresh key is appended at the end (newest-arrival position). -/
def dictInsert (l : List (Nat × Nat)) (t v : Nat) : List (Nat × Nat) :=
  if l.any (fun p => p.1 = t) then
    l.map (fun p => if p.1 = t then (t, v) else p)
  else
    l ++ [(t, v)]

/-- `OrderedDict.move_to_end(tag)`: relocate the entry for `tag` to the end.
Call sites in `cache.py` only invoke it on a resident tag; on an absent tag we
leave the list unchanged (Python would raise `KeyError`, unreachable here). -/
def move_to_end (l : List (Nat × Nat)) (t : Nat) : List (Nat × Nat) :=
  match l.find? (fun p => p.1 = t) with
  | none => l
  | some p => l.filter (fun q => decide (q.1 ≠ t)) ++ [p]

/-- `OrderedDict.pop(tag)` at a call site where `tag` is known resident:
remove its entry. -/
def dictPop (l : List (Nat × Nat)) (t : Nat) : List (Nat × Nat) :=
  l.filter (fun q => decide (q.1 ≠ t))

/-- `set.add` (idempotent). -/
def setAdd (d : List Nat) (t : Nat) : List Nat :=
  if t ∈ d then d else d ++ [t]

/-- `set.remove` at a call site where membership was already checked. -/
def setRemove (d : List Nat) (t : Nat) : List Nat :=
  d.filter (fun x => decide (x ≠ t))

/-- In-place mutation `self.cache[cache_index] = l` of one set's ordered dict. -/
def updateCache (s : CacheState) (i : Nat) (l : List (Nat × Nat)) : CacheState :=
  { s with cache := fun j => if j = i then l else (s.cache j) }

/-- In-place mutation `self.dirty_bits[cache_index] = d` of one set's dirty set. -/
def updateDirty (s : CacheState) (i : Nat) (d : List Nat) : CacheState :=
  { s with dirty_bits := fun j => if j = i then d else (s.dirty_bits j) }

/-- `is_dirty` (lines 35–38): recompute index and tag from the given address
and test membership in the dirty set. -/
def is_dirty (s : CacheState) (block_address : Nat) : Bool :=
  let cache_index := calculate_index s block_address
  let tag := calculate_tag s block_address
  (s.dirty_bits cache_index).contains tag

/-- `evict` (lines 75–101).  Victim selection: FIFO and LRU take the first
entry of the set's order, MRU the last; an unrecognized policy returns with no
effect (line 89).  On the recognized-policy path, line 91 then evaluates the
unbound name `victim_tag` and raises `NameError` before any writeback, removal,
report or invalidation on lines 93–101 can happen (with an empty set the
victim selection itself would raise `StopIteration` first). -/
def evict (s : CacheState) (cache_index : Nat) :
    List Event × Except PyError CacheState :=
  if s.eviction_policy = "FIFO" then
    match s.cache cache_index with
    | [] => ([], .error .stopIteration)
    | _ :: _ => ([], .error .nameError)
  else if s.eviction_policy = "LRU" then
    match s.cache cache_index with
    | [] => ([], .error .stopIteration)
    | _ :: _ => ([], .error .nameError)
  else if s.eviction_policy = "MRU" then
    match (s.cache cache_index).reverse with
    | [] => ([], .error .stopIteration)
    | _ :: _ => ([], .error .nameError)
  else
    ([], .ok s)

/-- `access` (lines 40–73).  Hit path: report the hit, under LRU move the tag
to the end (for every operation, including `'B'`), and on `'W'` mark dirty.
Miss path: report the miss, evict when the set is at or above capacity
(propagating any exception from `evict`), then append the new tag and on `'W'`
mark dirty.  The operation code is never validated; any code other than `'W'`
behaves like a read. -/
def access (s : CacheState) (operation : Char) (address : Nat) :
    List Event × Except PyError CacheState :=
  let cache_index := calculate_index s address
  let tag := calculate_tag s address
  let block_address := calculate_block_address s address
  if containsKey (s.cache cache_index) tag then
    let s1 :=
      if s.eviction_policy = "LRU" then
        updateCache s cache_index (move_to_end (s.cache cache_index) tag)
      else s
    let s2 :=
      if operation = 'W' then
        updateDirty s1 cache_index (setAdd (s1.dirty_bits cache_index) tag)
      else s1
    ([Event.hit address], .ok s2)
  else
    if s.associativity ≤ (s.cache cache_index).length then
      match evict s cache_index with
      | (evs, .error e) => (Event.miss address :: evs, .error e)
      | (evs, .ok t') =>
        let s1 := updateCache t' cache_index (dictInsert (t'.cache cache_index) tag block_address)
        let s2 :=
          if operation = 'W' then
            updateDirty s1 cache_index (setAdd (s1.dirty_bits cache_index) tag)
          else s1
        (Event.miss address :: evs, .ok s2)
    else
      let s1 := updateCache s cache_index (dictInsert (s.cache cache_index) tag block_address)
      let s2 :=
        if operation = 'W' then
          updateDirty s1 cache_index (setAdd (s1.dirty_bits cache_index) tag)
        else s1
      ([Event.miss address], .ok s2)

/-- `invalidate` (lines 103–119).  If the tag is resident: write back when
dirty, pop the tag, report the eviction.  The body references neither
`lower_level` nor `higher_level`; it acts on this level only and cannot raise. -/
def invalidate (s : CacheState) (block_address : Nat) :
    List Event × CacheState :=
  let cache_index := calculate_index s block_address
  let tag := calculate_tag s block_address
  if containsKey (s.cache cache_index) tag then
    let wb :=
      if (s.dirty_bits cache_index).contains tag then
        ([Event.writeback block_address],
          updateDirty s cache_index (setRemove (s.dirty_bits cache_index) tag))
      else (([] : List Event), s)
    let s2 := updateCache wb.2 cache_index (dictPop (wb.2.cache cache_index) tag)
    (wb.1 ++ [Event.eviction block_address], s2)
  else ([], s)

/-- Run a list of `(operation, address)` accesses in order, concatenating the
reported events; an exception aborts the run, keeping the events already
reported. -/
def runTrace : CacheState → List (Char × Nat) → List Event × Except PyError CacheState
  | s, [] => ([], .ok s)
  | s, (op, a) :: rest =>
    match access s op a with
    | (evs, .error e) => (evs, .error e)
    | (evs, .ok s') =>
      let r := runTrace s' rest
      (evs ++ r.1, r.2)

/-- `True` exactly when the run result is a normally returned state (no
Python exception escaped). -/
def isOk (r : Except PyError CacheState) : Bool :=
  match r with
  | .ok _ => true
  | .error _ => false

/-- `True` exactly when the run result is an escaped `NameError`. -/
def isNameError (r : Except PyError CacheState) : Bool :=
  match r with
  | .error PyError.nameError => true
  | _ => false

/-- Capacity bound of set `i`, checked on the result of a run; an aborted run
has no final state to check. -/
def checkCap (assoc i : Nat) (r : Except PyError CacheState) : Bool :=
  match r with
  | .error _ => true
  | .ok s => decide ((s.cache i).length ≤ assoc)

/-- Capacity invariant: every set holds at most `associativity` entries. -/
def CapInv (s : CacheState) : Prop :=
  ∀ i, (s.cache i).length ≤ s.associativity

/-- The worked example of spec §8: `size=64`, `block_size=16`,
`associativity=2` (hence two sets), FIFO. -/
def exampleFIFO : CacheState := CacheLevel.init 64 16 2 "FIFO" "WB"

/-- The same geometry under LRU. -/
def exampleLRU : CacheState := CacheLevel.init 64 16 2 "LRU" "WB"

/-- A direct-mapped two-set level configured with an eviction policy outside
`{FIFO, LRU, MRU}`. -/
def exampleUnknownPolicy : CacheState := CacheLevel.init 32 16 1 "RANDOM" "WB"

end CacheLevel

namespace CacheLevel

/-- Claim C1: address decomposition round-trips — with positive geometry
parameters and `num_sets = size / (block_size * associativity) ≥ 1`,
`_calculate_block_address_from_tag_index` applied to `_calculate_tag a` and
`_calculate_index a` returns exactly `_calculate_block_address a`. -/
theorem address_decomposition_roundtrip (s : CacheState)
    (hbs : 0 < s.block_size) (hassoc : 0 < s.associativity) (hsize : 0 < s.size)
    (hns : s.num_sets = s.size / (s.block_size * s.associativity))
    (h1 : 1 ≤ s.num_sets) (a : Nat) :
    calculate_block_address_from_tag_index s (calculate_tag s a) (calculate_index s a)
      = calculate_block_address s a := by
  unfold calculate_block_address_from_tag_index calculate_tag calculate_index
    calculate_block_address
  rw [← Nat.div_div_eq_div_mul, Nat.div_add_mod' (a / s.block_size) s.num_sets]
  have h2 := Nat.mod_add_div' a s.block_size
  omega

/-- Witness for C1 at the spec §8 geometry and address 100. -/
theorem address_decomposition_roundtrip_witness :
    calculate_block_address_from_tag_index exampleFIFO
      (calculate_tag exampleFIFO 100) (calculate_index exampleFIFO 100)
      = calculate_block_address exampleFIFO 100 :=
  address_decomposition_roundtrip exampleFIFO (by decide) (by decide) (by decide)
    (by decide) (by decide) 100

/-- Claim C10: `is_dirty` depends only on the containing block — for every
address, aligned or not, it answers as it does for
`_calculate_block_address a`. -/
theorem is_dirty_block_aligned (s : CacheState)
    (hbs : 0 < s.block_size) (hns : 0 < s.num_sets) (a : Nat) :
    is_dirty s a = is_dirty s (calculate_block_address s a) := by
  have hba : calculate_block_address s a = s.block_size * (a / s.block_size) := by
    unfold calculate_block_address
    have := Nat.mod_add_div a s.block_size
    omega
  have hidx : calculate_index s (calculate_block_address s a) = calculate_index s a := by
    unfold calculate_index
    rw [hba, Nat.mul_div_cancel_left _ hbs]
  have htag : calculate_tag s (calculate_block_address s a) = calculate_tag s a := by
    unfold calculate_tag
    rw [hba, ← Nat.div_div_eq_div_mul, Nat.mul_div_cancel_left _ hbs]
    exact Nat.div_div_eq_div_mul a s.block_size s.num_sets
  unfold is_dirty
  rw [hidx, htag]

/-- Witness for C10 at the spec §8 geometry and the unaligned address 37. -/
theorem is_dirty_block_aligned_witness :
    is_dirty exampleFIFO 37 = is_dirty exampleFIFO (calculate_block_address exampleFIFO 37) :=
  is_dirty_block_aligned exampleFIFO (by decide) (by decide) 37

/-- Counterexample to claim C2: on the spec §8 level (64/16/2, FIFO), the
accesses 0, 16, 32 report three misses and no eviction of block 0 — address 16
maps to set 1, so set 0 receives only the two tags 0 and 1 and stays within
associativity. -/
theorem end_to_end_example_no_eviction :
    (runTrace exampleFIFO [('R', 0), ('R', 16), ('R', 32)]).1
      = [Event.miss 0, Event.miss 16, Event.miss 32] ∧
    Event.eviction 0 ∉ (runTrace exampleFIFO [('R', 0), ('R', 16), ('R', 32)]).1 := by
  decide

/-- Amended claim C2: the accesses 0, 16, 32 on the empty 64/16/2 FIFO level
report miss, miss, miss; afterwards set 0 holds blocks 0 and 32 and set 1
holds block 16, and no eviction has occurred. -/
theorem end_to_end_example_three_misses :
    (runTrace exampleFIFO [('R', 0), ('R', 16), ('R', 32)]).1
      = [Event.miss 0, Event.miss 16, Event.miss 32] ∧
    (runTrace exampleFIFO [('R', 0), ('R', 16), ('R', 32)]).2.toOption.map
        (fun s => (s.cache 0, s.cache 1))
      = some ([(0, 0), (1, 32)], [(0, 16)]) := by
  decide

/-- Claim C3 (code bug): on the reachable state holding block 0, `evict 0`
under FIFO raises `NameError` (line 91 reads the unbound name `victim_tag`)
instead of completing and removing a victim. -/
theorem evict_raises_name_error :
    (runTrace exampleFIFO [('R', 0)]).2.toOption.map (fun s => isNameError (evict s 0).2)
      = some true := by
  decide

/-- Claim C4 (code bug): under LRU, a BlockRefill hit reorders the set — after
filling set 0 with tags 0 and 1 (order `[0, 1]`), `access 'B' 0` hits and
`move_to_end` runs for every operation, leaving order `[1, 0]`. -/
theorem block_refill_perturbs_lru_order :
    (runTrace exampleLRU [('R', 0), ('R', 32)]).2.toOption.map (fun s => s.cache 0)
      = some [(0, 0), (1, 32)] ∧
    (runTrace exampleLRU [('R', 0), ('R', 32), ('B', 0)]).1
      = [Event.miss 0, Event.miss 32, Event.hit 0] ∧
    (runTrace exampleLRU [('R', 0), ('R', 32), ('B', 0)]).2.toOption.map (fun s => s.cache 0)
      = some [(1, 32), (0, 0)] := by
  decide

/-- Claim C7 (code bug): at a reachable state where block 0 is resident and
dirty, `invalidate 0` emits only this level's writeback and eviction and
removes the tag; the body of `invalidate` performs no call on `lower_level`,
so no downstream invalidation ever happens. -/
theorem invalidate_touches_this_level_only :
    (runTrace exampleFIFO [('W', 0)]).2.toOption.map
        (fun s => ((invalidate s 0).1, (invalidate s 0).2.cache 0, (invalidate s 0).2.dirty_bits 0))
      = some ([Event.writeback 0, Event.eviction 0], [], []) := by
  decide

/-- Claim C8 (code bug): a Write to 0 followed by reads of 32 and 64 (all in
set 0, associativity 2) must evict block 0 — but the eviction raises
`NameError` before any writeback, so the run aborts with events
`[miss 0, miss 32, miss 64]` and no writeback of block 0 is ever reported. -/
theorem writeback_lost_on_eviction :
    isNameError (runTrace exampleFIFO [('W', 0), ('R', 32), ('R', 64)]).2 = true ∧
    (runTrace exampleFIFO [('W', 0), ('R', 32), ('R', 64)]).1
      = [Event.miss 0, Event.miss 32, Event.miss 64] ∧
    Event.writeback 0 ∉ (runTrace exampleFIFO [('W', 0), ('R', 32), ('R', 64)]).1 := by
  decide

/-- Counterexample to claim C5: the operation code `'X'`, outside
`{'R', 'W', 'B'}`, is accepted without any error, and the valid operation
`'R'` can raise (`NameError` out of `evict`) once an access forces an
eviction. -/
theorem invalid_operation_not_rejected :
    isOk (access exampleFIFO 'X' 0).2 = true ∧
    isNameError (runTrace exampleFIFO [('R', 0), ('R', 32), ('R', 64)]).2 = true := by
  decide

/-- Counterexample to claim C6: constructing a level with `size = 65`,
`block_size = 16`, `associativity = 2` raises no configuration error;
`num_sets` is silently truncated to `65 / 32 = 2`, which does not reproduce
the size. -/
theorem bad_geometry_accepted :
    (CacheLevel.init 65 16 2 "FIFO" "WB").num_sets = 2 ∧
    (CacheLevel.init 65 16 2 "FIFO" "WB").num_sets * (16 * 2) ≠ 65 := by
  decide

/-- Counterexample to claim C9: with the eviction policy `"RANDOM"` (outside
`{FIFO, LRU, MRU}`) and associativity 1, two misses on the same set complete
normally and leave the set with 2 resident tags — `evict` no-ops but the
insertion still proceeds. -/
theorem capacity_exceeded_under_unknown_policy :
    exampleUnknownPolicy.associativity = 1 ∧
    (runTrace exampleUnknownPolicy [('R', 0), ('R', 32)]).2.toOption.map
        (fun s => (s.cache 0).length)
      = some 2 := by
  decide

/-- Amended claim C5: `access` never raises an `InvalidOperation` error — any
operation code is accepted (codes other than `'W'` behave as non-writes) —
and an access that hits, or that misses in a set below capacity, completes
without error under every operation code. -/
theorem access_total_no_evict (s : CacheState) (operation : Char) (address : Nat)
    (h : containsKey (s.cache (calculate_index s address)) (calculate_tag s address) = true
         ∨ (s.cache (calculate_index s address)).length < s.associativity) :
    isOk (access s operation address).2 = true := by
  unfold access
  by_cases hc : containsKey (s.cache (calculate_index s address)) (calculate_tag s address) = true
  · simp only [hc, if_true]
    rfl
  · have hlen : ¬ s.associativity ≤ (s.cache (calculate_index s address)).length := by
      rcases h with h | h
      · exact absurd h hc
      · omega
    rw [if_neg hc, if_neg hlen]
    rfl

/-- Witness for the amended C5: the unknown operation code `'Q'` at address 5
on the empty example level completes without error. -/
theorem access_total_no_evict_witness :
    isOk (access exampleFIFO 'Q' 5).2 = true :=
  access_total_no_evict exampleFIFO 'Q' 5 (Or.inr (by decide))

/-- Amended claim C6: construction performs no geometry validation — for any
parameters with `block_size * associativity > 0` it completes and sets
`num_sets` to `size` divided by `block_size * associativity` rounded down,
silently truncating whenever the division is not exact. -/
theorem init_truncates_num_sets (size block_size associativity : Nat)
    (eviction_policy write_policy : String)
    (h : 0 < block_size * associativity) :
    (init size block_size associativity eviction_policy write_policy).num_sets
        * (block_size * associativity) ≤ size ∧
    size < ((init size block_size associativity eviction_policy write_policy).num_sets + 1)
        * (block_size * associativity) := by
  simp only [init]
  constructor
  · exact Nat.div_mul_le_self size (block_size * associativity)
  · calc size
        = (block_size * associativity) * (size / (block_size * associativity))
            + size % (block_size * associativity) :=
          (Nat.div_add_mod size (block_size * associativity)).symm
    _ < (block_size * associativity) * (size / (block_size * associativity))
            + (block_size * associativity) :=
          Nat.add_lt_add_left (Nat.mod_lt size h) _
    _ = (size / (block_size * associativity) + 1) * (block_size * associativity) := by
          ring

/-- Witness for the amended C6 at the non-dividing geometry 65/16/2. -/
theorem init_truncates_num_sets_witness :
    (init 65 16 2 "FIFO" "WB").num_sets * (16 * 2) ≤ 65 ∧
    65 < ((init 65 16 2 "FIFO" "WB").num_sets + 1) * (16 * 2) :=
  init_truncates_num_sets 65 16 2 "FIFO" "WB" (by decide)

/-- Moving a resident tag to the end of a set's order never grows the set. -/
theorem length_move_to_end_le (l : List (Nat × Nat)) (t : Nat) :
    (move_to_end l t).length ≤ l.length := by
  unfold move_to_end
  cases hf : l.find? (fun p => decide (p.1 = t)) with
  | none => exact Nat.le_refl _
  | some p =>
    have hmem : p ∈ l := List.mem_of_find?_eq_some hf
    have hp := List.find?_some hf
    have hsplit := List.length_eq_length_filter_add (l := l) (fun q => decide (q.1 = t))
    have hpos : 0 < (l.filter (fun q => decide (q.1 = t))).length :=
      List.length_pos_of_mem (List.mem_filter.mpr ⟨hmem, hp⟩)
    have heq : l.filter (fun q => decide (q.1 ≠ t))
        = l.filter (fun q => ! decide (q.1 = t)) := by
      apply List.filter_congr
      intro x _
      simp [decide_not]
    simp only [List.length_append, List.length_cons, List.length_nil, heq]
    omega

/-- Inserting into a set's ordered dict adds at most one entry. -/
theorem length_dictInsert_le (l : List (Nat × Nat)) (t v : Nat) :
    (dictInsert l t v).length ≤ l.length + 1 := by
  unfold dictInsert
  by_cases h : l.any (fun p => decide (p.1 = t)) = true
  · rw [if_pos h, List.length_map]
    omega
  · rw [if_neg h, List.length_append]
    simp

/-- Under a recognized eviction policy, `evict` always escapes with an
exception (the `NameError` of line 91, or `StopIteration` on an empty set). -/
theorem evict_recognized_error (s : CacheState) (i : Nat)
    (hp : s.eviction_policy = "FIFO" ∨ s.eviction_policy = "LRU"
          ∨ s.eviction_policy = "MRU") :
    isOk (evict s i).2 = false := by
  unfold evict
  rcases hp with h | h | h <;> rw [h]
  · rw [if_pos rfl]
    cases s.cache i <;> rfl
  · rw [if_neg (by decide), if_pos rfl]
    cases s.cache i <;> rfl
  · rw [if_neg (by decide), if_neg (by decide), if_pos rfl]
    cases (s.cache i).reverse <;> rfl

/-- Replacing one set with a list within the capacity bound preserves the
capacity invariant. -/
theorem CapInv_updateCache (s : CacheState) (i : Nat) (l : List (Nat × Nat))
    (hcap : CapInv s) (hl : l.length ≤ s.associativity) :
    CapInv (updateCache s i l) := by
  intro j
  unfold updateCache CapInv at *
  dsimp only
  by_cases hj : j = i
  · rw [if_pos hj]; exact hl
  · rw [if_neg hj]; exact hcap j

/-- Updating dirty bits leaves the cache contents untouched. -/
theorem CapInv_updateDirty (s : CacheState) (i : Nat) (d : List Nat)
    (hcap : CapInv s) : CapInv (updateDirty s i d) :=
  fun j => hcap j

/-- One access under a recognized policy preserves the capacity invariant
(and the geometry fields) whenever it returns normally. -/
theorem access_capacity_step (s : CacheState) (op : Char) (a : Nat) (t : CacheState)
    (hp : s.eviction_policy = "FIFO" ∨ s.eviction_policy = "LRU"
          ∨ s.eviction_policy = "MRU")
    (hcap : CapInv s)
    (h : (access s op a).2 = Except.ok t) :
    CapInv t ∧ t.associativity = s.associativity
      ∧ t.eviction_policy = s.eviction_policy := by
  unfold access at h
  by_cases hc : containsKey (s.cache (calculate_index s a)) (calculate_tag s a) = true
  · rw [if_pos hc] at h
    dsimp only at h
    injection h with h
    by_cases hl : s.eviction_policy = "LRU"
    · rw [if_pos hl] at h
      by_cases hw : op = 'W'
      · rw [if_pos hw] at h
        subst h
        exact ⟨CapInv_updateDirty _ _ _ (CapInv_updateCache _ _ _ hcap
          (le_trans (length_move_to_end_le _ _) (hcap _))), rfl, rfl⟩
      · rw [if_neg hw] at h
        subst h
        exact ⟨CapInv_updateCache _ _ _ hcap
          (le_trans (length_move_to_end_le _ _) (hcap _)), rfl, rfl⟩
    · rw [if_neg hl] at h
      by_cases hw : op = 'W'
      · rw [if_pos hw] at h
        subst h
        exact ⟨CapInv_updateDirty _ _ _ hcap, rfl, rfl⟩
      · rw [if_neg hw] at h
        subst h
        exact ⟨hcap, rfl, rfl⟩
  · rw [if_neg hc] at h
    by_cases hfull : s.associativity ≤ (s.cache (calculate_index s a)).length
    · rw [if_pos hfull] at h
      have hev := evict_recognized_error s (calculate_index s a) hp
      cases hevq : evict s (calculate_index s a) with
      | mk evs r =>
        rw [hevq] at h hev
        cases r with
        | error e => simp at h
        | ok u => simp [isOk] at hev
    · rw [if_neg hfull] at h
      dsimp only at h
      injection h with h
      have hlen : (dictInsert (s.cache (calculate_index s a)) (calculate_tag s a)
          (calculate_block_address s a)).length ≤ s.associativity := by
        have := length_dictInsert_le (s.cache (calculate_index s a)) (calculate_tag s a)
          (calculate_block_address s a)
        omega
      by_cases hw : op = 'W'
      · rw [if_pos hw] at h
        subst h
        exact ⟨CapInv_updateDirty _ _ _ (CapInv_updateCache _ _ _ hcap hlen), rfl, rfl⟩
      · rw [if_neg hw] at h
        subst h
        exact ⟨CapInv_updateCache _ _ _ hcap hlen, rfl, rfl⟩

/-- A whole trace under a recognized policy preserves the capacity invariant
whenever it completes without an exception. -/
theorem runTrace_capacity (trace : List (Char × Nat)) :
    ∀ s : CacheState,
      (s.eviction_policy = "FIFO" ∨ s.eviction_policy = "LRU"
        ∨ s.eviction_policy = "MRU") →
      CapInv s →
      ∀ t, (runTrace s trace).2 = Except.ok t →
        CapInv t ∧ t.associativity = s.associativity := by
  induction trace with
  | nil =>
    intro s hp hcap t h
    unfold runTrace at h
    dsimp only at h
    injection h with h
    subst h
    exact ⟨hcap, rfl⟩
  | cons x rest ih =>
    obtain ⟨op, a⟩ := x
    intro s hp hcap t h
    unfold runTrace at h
    cases hacc : access s op a with
    | mk evs r =>
      rw [hacc] at h
      cases r with
      | error e => simp at h
      | ok s1 =>
        dsimp only at h
        have hstep := access_capacity_step s op a s1 hp hcap (by rw [hacc])
        have hrec := ih s1 (by rw [hstep.2.2]; exact hp) hstep.1 t h
        exact ⟨hrec.1, hrec.2.trans hstep.2.1⟩

/-- Amended claim C9: starting from the empty level with an eviction policy in
`{FIFO, LRU, MRU}`, after every sequence of accesses that completes without an
exception, every set's ordered mapping holds at most `associativity` resident
tags (with an unrecognized policy the bound can be exceeded, since `evict`
no-ops while the insertion still proceeds). -/
theorem capacity_invariant_recognized (size bs assoc : Nat) (ep wp : String)
    (hp : ep = "FIFO" ∨ ep = "LRU" ∨ ep = "MRU")
    (trace : List (Char × Nat)) (i : Nat) :
    checkCap assoc i (runTrace (init size bs assoc ep wp) trace).2 = true := by
  cases hres : (runTrace (init size bs assoc ep wp) trace).2 with
  | error e => rfl
  | ok t =>
    have hrun := runTrace_capacity trace (init size bs assoc ep wp)
      (by simpa [init] using hp) (fun j => by simp [init]) t hres
    have h1 := hrun.1 i
    have h2 := hrun.2
    simp only [init] at h2
    unfold checkCap
    rw [decide_eq_true_eq]
    omega

/-- Witness for the amended C9: a four-access FIFO trace on the spec §8
geometry keeps set 0 within its two ways. -/
theorem capacity_invariant_recognized_witness :
    checkCap 2 0 (runTrace (init 64 16 2 "FIFO" "WB")
      [('R', 0), ('W', 32), ('R', 0), ('R', 64)]).2 = true :=
  capacity_invariant_recognized 64 16 2 "FIFO" "WB" (Or.inl rfl)
    [('R', 0), ('W', 32), ('R', 0), ('R', 64)] 0

end CacheLevel
